import Mathlib

/-!
Verification development for `local-server.py`, a single-file local HTTP
server that echoes contact-form POST submissions to the console and answers
with a canned success page.

The Python source is shallowly embedded: each handler method becomes a total
Lean function from an explicit request value to an explicit result value
(response, console output, bytes read), with unhandled Python exceptions
modelled by `Except`.  Library routines the script calls
(`bytes.decode`, `urllib.parse.parse_qs`, `int(...)`, `in` on strings)
are modelled from their CPython semantics.
-/

namespace LocalServer

/-! Section: small character and string helpers -/

/-- Value of a hexadecimal digit character (0 for non-hex input; callers
guard with `isHexChar`). -/
def hexCharVal (c : Char) : Nat :=
  if '0' ≤ c ∧ c ≤ '9' then c.toNat - '0'.toNat
  else if 'a' ≤ c ∧ c ≤ 'f' then c.toNat - 'a'.toNat + 10
  else if 'A' ≤ c ∧ c ≤ 'F' then c.toNat - 'A'.toNat + 10
  else 0

/-- Is `c` an ASCII hexadecimal digit? -/
def isHexChar (c : Char) : Bool :=
  ('0' ≤ c && c ≤ '9') || ('a' ≤ c && c ≤ 'f') || ('A' ≤ c && c ≤ 'F')

/-- Lower-case hex digit for a value below 16. -/
def hexDigit (n : Nat) : Char :=
  if n < 10 then Char.ofNat ('0'.toNat + n) else Char.ofNat ('a'.toNat + n - 10)

/-- Two lower-case hex digits of a byte, as Python formats bytes in
`repr` and in `UnicodeDecodeError` messages. -/
def hex2 (b : Nat) : String :=
  String.mk [hexDigit (b / 16 % 16), hexDigit (b % 16)]

/-- Whether `pat` is a prefix of `s` (on character lists). -/
def listIsPrefix : List Char → List Char → Bool
  | [], _ => true
  | _ :: _, [] => false
  | a :: as, b :: bs => a = b && listIsPrefix as bs

/-- Whether `pat` occurs contiguously inside `s` (on character lists). -/
def listHasSub (pat : List Char) : List Char → Bool
  | [] => pat.isEmpty
  | c :: rest => listIsPrefix pat (c :: rest) || listHasSub pat rest

/-- Python string containment `pat in s`. -/
def pyIn (pat s : String) : Bool :=
  listHasSub pat.toList s.toList

/-! Section: UTF-8 decoding (CPython `bytes.decode("utf-8", errors=...)`).

Bytes are modelled as `Nat` values below 256.  The decoders follow the
standard UTF-8 automaton CPython uses: lead bytes `0xC2-0xDF` take one
continuation byte, `0xE0-0xEF` two (with the restricted first-continuation
ranges for `0xE0` and `0xED` that exclude overlong forms and surrogates),
`0xF0-0xF4` three (with the restricted ranges for `0xF0` and `0xF4` that
exclude overlong forms and codepoints above `U+10FFFF`).  On an invalid
sequence the lossy decoders consume the maximal valid subpart and either
drop it (`errors="ignore"`) or emit `U+FFFD` (`errors="replace"`). -/

/-- Is `b` a UTF-8 continuation byte (`0x80-0xBF`)? -/
def isCont (b : Nat) : Bool :=
  0x80 ≤ b && b ≤ 0xBF

/-- Valid first continuation byte after a three-byte lead `b`. -/
def cont3fst (b b1 : Nat) : Bool :=
  if b = 0xE0 then 0xA0 ≤ b1 && b1 ≤ 0xBF
  else if b = 0xED then 0x80 ≤ b1 && b1 ≤ 0x9F
  else isCont b1

/-- Valid first continuation byte after a four-byte lead `b`. -/
def cont4fst (b b1 : Nat) : Bool :=
  if b = 0xF0 then 0x90 ≤ b1 && b1 ≤ 0xBF
  else if b = 0xF4 then 0x80 ≤ b1 && b1 ≤ 0x8F
  else isCont b1

/-- One decoding error in the lossy decoders: drop for `errors="ignore"`
(`repl = false`), `U+FFFD` for `errors="replace"` (`repl = true`). -/
def lossyErr (repl : Bool) (k : List Char) : List Char :=
  if repl then Char.ofNat 0xFFFD :: k else k

/-- Total UTF-8 decoder for `errors="ignore"` (`repl = false`) and
`errors="replace"` (`repl = true`). -/
def utf8DecodeLossy (repl : Bool) : List Nat → List Char
  | [] => []
  | b :: rest =>
    if b < 0x80 then Char.ofNat b :: utf8DecodeLossy repl rest
    else if b < 0xC2 then lossyErr repl (utf8DecodeLossy repl rest)
    else if b < 0xE0 then
      match rest with
      | [] => lossyErr repl []
      | b1 :: rest1 =>
        if isCont b1 then
          Char.ofNat ((b - 0xC0) * 0x40 + (b1 - 0x80)) :: utf8DecodeLossy repl rest1
        else lossyErr repl (utf8DecodeLossy repl (b1 :: rest1))
    else if b < 0xF0 then
      match rest with
      | [] => lossyErr repl []
      | [b1] =>
        if cont3fst b b1 then lossyErr repl []
        else lossyErr repl (utf8DecodeLossy repl [b1])
      | b1 :: b2 :: rest2 =>
        if cont3fst b b1 then
          if isCont b2 then
            Char.ofNat ((b - 0xE0) * 0x1000 + (b1 - 0x80) * 0x40 + (b2 - 0x80)) ::
              utf8DecodeLossy repl rest2
          else lossyErr repl (utf8DecodeLossy repl (b2 :: rest2))
        else lossyErr repl (utf8DecodeLossy repl (b1 :: b2 :: rest2))
    else if b < 0xF5 then
      match rest with
      | [] => lossyErr repl []
      | [b1] =>
        if cont4fst b b1 then lossyErr repl []
        else lossyErr repl (utf8DecodeLossy repl [b1])
      | [b1, b2] =>
        if cont4fst b b1 then
          if isCont b2 then lossyErr repl []
          else lossyErr repl (utf8DecodeLossy repl [b2])
        else lossyErr repl (utf8DecodeLossy repl [b1, b2])
      | b1 :: b2 :: b3 :: rest3 =>
        if cont4fst b b1 then
          if isCont b2 then
            if isCont b3 then
              Char.ofNat ((b - 0xF0) * 0x40000 + (b1 - 0x80) * 0x1000 +
                  (b2 - 0x80) * 0x40 + (b3 - 0x80)) :: utf8DecodeLossy repl rest3
            else lossyErr repl (utf8DecodeLossy repl (b3 :: rest3))
          else lossyErr repl (utf8DecodeLossy repl (b2 :: b3 :: rest3))
        else lossyErr repl (utf8DecodeLossy repl (b1 :: b2 :: b3 :: rest3))
    else lossyErr repl (utf8DecodeLossy repl rest)

/-- Data of a `UnicodeDecodeError`, modelled by the position of the offending lead
byte, the byte itself, and CPython reason text. -/
structure DecodeError where
  pos : Nat
  byte : Nat
  reason : String
deriving DecidableEq, Repr

/-- Rendering `str(e)` of a `UnicodeDecodeError` (modelled on the
single-byte form of CPython messages). -/
def DecodeError.message (e : DecodeError) : String :=
  "\x27utf-8\x27 codec can\x27t decode byte 0x" ++ hex2 e.byte ++
    " in position " ++ toString e.pos ++ ": " ++ e.reason

/-- Strict UTF-8 decoder (`errors="strict"`, the default of
`bytes.decode("utf-8")`): fails on the first invalid sequence, reporting
its position.  `i` is the index of the head of the list in the whole
input. -/
def utf8DecodeStrict (i : Nat) : List Nat → Except DecodeError (List Char)
  | [] => .ok []
  | b :: rest =>
    if b < 0x80 then
      (Char.ofNat b :: ·) <$> utf8DecodeStrict (i + 1) rest
    else if b < 0xC2 then .error ⟨i, b, "invalid start byte"⟩
    else if b < 0xE0 then
      match rest with
      | [] => .error ⟨i, b, "unexpected end of data"⟩
      | b1 :: rest1 =>
        if isCont b1 then
          (Char.ofNat ((b - 0xC0) * 0x40 + (b1 - 0x80)) :: ·) <$>
            utf8DecodeStrict (i + 2) rest1
        else .error ⟨i, b, "invalid continuation byte"⟩
    else if b < 0xF0 then
      match rest with
      | [] => .error ⟨i, b, "unexpected end of data"⟩
      | [b1] =>
        if cont3fst b b1 then .error ⟨i, b, "unexpected end of data"⟩
        else .error ⟨i, b, "invalid continuation byte"⟩
      | b1 :: b2 :: rest2 =>
        if cont3fst b b1 then
          if isCont b2 then
            (Char.ofNat ((b - 0xE0) * 0x1000 + (b1 - 0x80) * 0x40 + (b2 - 0x80)) :: ·) <$>
              utf8DecodeStrict (i + 3) rest2
          else .error ⟨i, b, "invalid continuation byte"⟩
        else .error ⟨i, b, "invalid continuation byte"⟩
    else if b < 0xF5 then
      match rest with
      | [] => .error ⟨i, b, "unexpected end of data"⟩
      | [b1] =>
        if cont4fst b b1 then .error ⟨i, b, "unexpected end of data"⟩
        else .error ⟨i, b, "invalid continuation byte"⟩
      | [b1, b2] =>
        if cont4fst b b1 then
          if isCont b2 then .error ⟨i, b, "unexpected end of data"⟩
          else .error ⟨i, b, "invalid continuation byte"⟩
        else .error ⟨i, b, "invalid continuation byte"⟩
      | b1 :: b2 :: b3 :: rest3 =>
        if cont4fst b b1 then
          if isCont b2 then
            if isCont b3 then
              (Char.ofNat ((b - 0xF0) * 0x40000 + (b1 - 0x80) * 0x1000 +
                  (b2 - 0x80) * 0x40 + (b3 - 0x80)) :: ·) <$>
                utf8DecodeStrict (i + 4) rest3
            else .error ⟨i, b, "invalid continuation byte"⟩
          else .error ⟨i, b, "invalid continuation byte"⟩
        else .error ⟨i, b, "invalid continuation byte"⟩
    else .error ⟨i, b, "invalid start byte"⟩

/-- Model of `post_data.decode("utf-8", errors="ignore")`, as a string. -/
def pyDecodeIgnore (bs : List Nat) : String :=
  String.mk (utf8DecodeLossy false bs)

/-- Model of `s.decode("utf-8", errors="replace")`, as a string. -/
def pyDecodeReplace (bs : List Nat) : String :=
  String.mk (utf8DecodeLossy true bs)

/-! Section: `urllib.parse.parse_qs` (as called with all defaults).

The script calls `parse_qs(post_data.decode("utf-8"))`, so
`keep_blank_values=False`, `strict_parsing=False`, `encoding="utf-8"`,
`errors="replace"`, `separator="&"` are in force. -/

/-- Model of `urllib.parse.unquote(s, encoding="utf-8", errors="replace")`:
maximal runs of `%XX` hex escapes decode as UTF-8 bytes with
`errors="replace"`; every other character passes through.  `acc` holds the
bytes of the pending run of escapes. -/
def unquoteAux : List Char → List Nat → List Char
  | [], acc => utf8DecodeLossy true acc
  | '%' :: h1 :: h2 :: rest2, acc =>
    if isHexChar h1 && isHexChar h2 then
      unquoteAux rest2 (acc ++ [hexCharVal h1 * 16 + hexCharVal h2])
    else utf8DecodeLossy true acc ++ '%' :: unquoteAux (h1 :: h2 :: rest2) []
  | c :: rest, acc => utf8DecodeLossy true acc ++ c :: unquoteAux rest []

/-- Model of `urllib.parse.unquote` with the defaults `parse_qsl` passes. -/
def unquote (s : List Char) : List Char :=
  unquoteAux s []

/-- Model of the `+` to space replacement `parse_qsl` applies before unquoting. -/
def plusToSpace (s : List Char) : List Char :=
  s.map fun c => if c = '+' then ' ' else c

/-- Python `str.partition("=")`: the part before the first `=` and, when
one exists, the part after it. -/
def partitionEq : List Char → List Char × Option (List Char)
  | [] => ([], none)
  | c :: rest =>
    if c = '=' then ([], some rest)
    else
      let p := partitionEq rest
      (c :: p.1, p.2)

/-- Handling of one `name=value` field of `parse_qsl`: fields that are empty, have no
`=`, or have an empty value are dropped (`keep_blank_values=False`);
otherwise `+` becomes space and `%XX` escapes are decoded in both name and
value. -/
def parseField (f : List Char) : Option (String × String) :=
  if f.isEmpty then none
  else
    match partitionEq f with
    | (_, none) => none
    | (name, some value) =>
      if value.isEmpty then none
      else some (String.mk (unquote (plusToSpace name)),
                 String.mk (unquote (plusToSpace value)))

/-- Model of `urllib.parse.parse_qsl` with the defaults in force: split on `&` and
keep the surviving fields in order. -/
def parse_qsl (qs : String) : List (String × String) :=
  (qs.toList.splitOn '&').filterMap parseField

/-- Append `v` to the entry for `k`, or add a fresh entry at the end:
the insertion-order grouping a Python `dict` performs in `parse_qs`. -/
def insertPair (k v : String) : List (String × List String) → List (String × List String)
  | [] => [(k, [v])]
  | (k0, vs) :: rest =>
    if k0 = k then (k0, vs ++ [v]) :: rest
    else (k0, vs) :: insertPair k v rest

/-- Model of `urllib.parse.parse_qs` with the defaults in force: group the
`parse_qsl` pairs into an insertion-ordered mapping from field name to the
list of its values. -/
def parse_qs (qs : String) : List (String × List String) :=
  (parse_qsl qs).foldl (fun acc p => insertPair p.1 p.2 acc) []

/-! Section: Python `int(...)` and `repr(bytes)`. -/

/-- Digit run of a Python integer literal after the first digit: single
underscores are allowed between digits. -/
def pyDigitsAux : List Char → Nat → Option Nat
  | [], acc => some acc
  | '_' :: c :: rest, acc =>
    if c.isDigit then pyDigitsAux rest (acc * 10 + (c.toNat - '0'.toNat)) else none
  | c :: rest, acc =>
    if c.isDigit then pyDigitsAux rest (acc * 10 + (c.toNat - '0'.toNat)) else none

/-- Nonempty digit run (underscores between digits allowed). -/
def pyDigits : List Char → Option Nat
  | [] => none
  | c :: rest =>
    if c.isDigit then pyDigitsAux rest (c.toNat - '0'.toNat) else none

/-- Python `int(s)` on a string: strip whitespace, optional sign, decimal
digits; `none` models the `ValueError` raised on anything else. -/
def pyInt (s : String) : Option Int :=
  let cs := (s.toList.dropWhile Char.isWhitespace).reverse.dropWhile Char.isWhitespace
    |>.reverse
  match cs with
  | '+' :: rest => (Int.ofNat ·) <$> pyDigits rest
  | '-' :: rest => (fun n => -(Int.ofNat n)) <$> pyDigits rest
  | _ => (Int.ofNat ·) <$> pyDigits cs

/-- One byte of `repr(bytes)` (single-quote form): printable ASCII stays
itself, backslash, quote, tab, newline, carriage return are escaped, the
rest become `\xhh`. -/
def byteEsc (b : Nat) : String :=
  if b = 0x5C then "\\\\"
  else if b = 0x27 then "\\\x27"
  else if b = 9 then "\\t"
  else if b = 10 then "\\n"
  else if b = 13 then "\\r"
  else if 0x20 ≤ b && b < 0x7F then String.mk [Char.ofNat b]
  else "\\x" ++ hex2 b

/-- Model of `repr(post_data)` for a `bytes` value, as `print` renders it
(single-quote form). -/
def pyBytesRepr (bs : List Nat) : String :=
  "b\x27" ++ String.join (bs.map byteEsc) ++ "\x27"

/-! Section: the request handler (`ContactFormHandler`).

A POST request is modelled by its path, the raw values of the two headers
the handler reads (absent headers are `none`), and the stream of body
bytes the client provides.  A handler run produces the response the
handler sends (status, the headers it passes to `send_header`, body), the
lines it prints to the console (one list entry per `print` call, without
the trailing newline), and how many body bytes it read from the socket.
Python exceptions that would escape the handler are modelled by
`Except.error`. -/

/-- Incoming POST request as the handler observes it. -/
structure PostRequest where
  path : String
  contentLengthHeader : Option String
  contentTypeHeader : Option String
  body : List Nat
deriving Repr

/-- Response data the handler emits: `send_response` status, the headers
it passes to `send_header`, and the body it writes. -/
structure Response where
  status : Nat
  headers : List (String × String)
  body : String
deriving DecidableEq, Repr

/-- Result of one handler run. -/
structure HandlerResult where
  response : Response
  console : List String
  bytesRead : Nat
deriving DecidableEq, Repr

/-- Python exceptions that would escape the handler uncaught. -/
inductive PyExn where
  /-- Exception `int(None)` raises when the header is absent. -/
  | typeError
  /-- Exception `int(s)` raises on a non-numeric string. -/
  | valueError
deriving DecidableEq, Repr

/-- ASCII lower-casing for case-insensitive header-name comparison
(HTTP header names are case-insensitive). -/
def lowerAscii (s : String) : String :=
  String.mk (s.toList.map Char.toLower)

/-- Value of the first header whose name matches `name` case-insensitively. -/
def getHeaderCI (name : String) (hs : List (String × String)) : Option String :=
  (hs.find? fun p => lowerAscii p.1 == lowerAscii name).map (·.2)

/-- Model of `self.rfile.read(n)` on a request whose available body bytes
are `body`: a non-negative count takes that many bytes (the socket
delivers them in order), a negative count reads to end of stream. -/
def readBytes (n : Int) (body : List Nat) : List Nat :=
  if n < 0 then body else body.take n.toNat

/-- Separator string `"=" * 50`. -/
def sep50 : String :=
  String.mk (List.replicate 50 '=')

/-- Separator string `"-" * 60`. -/
def dash60 : String :=
  String.mk (List.replicate 60 '-')

/-- Content of the `success_html` literal (lines 58-78 of the source),
including the leading newline and the 12-space indentation the Python
triple-quoted string carries. -/
def successHtml : String :=
  "
            <!DOCTYPE html>
            <html>
            <head>
                <title>Form Submitted</title>
                <style>
                    body \x7b font-family: Arial, sans-serif; text-align: center; padding: 50px; \x7d
                    .success \x7b color: green; font-size: 24px; margin-bottom: 20px; \x7d
                    .info \x7b color: #666; margin-bottom: 10px; \x7d
                </style>
            </head>
            <body>
                <div class=\"success\">✅ Form Submitted Successfully!</div>
                <div class=\"info\">This is a local testing simulation.</div>
                <div class=\"info\">In production, Netlify Forms will handle this.</div>
                <div class=\"info\">Check your terminal for the submitted data.</div>
                <br>
                <a href=\"/\">← Back to Contact Form</a>
            </body>
            </html>
            "

/-- Console lines of the `try` block (lines 31-44 of the source): the
form-encoded branch strictly decodes the body and echoes
`parse_qs` fields (first value, or the empty string for an empty list);
the other branch decodes with `errors="ignore"` under a label.  The
`except` arm prints the exception message and the `repr` of the raw
bytes.  Only the strict decode can raise here; `parse_qs` with default
arguments and the lossy decode cannot. -/
def tryBlock (ct : String) (post_data : List Nat) : List String :=
  if pyIn "application/x-www-form-urlencoded" ct then
    match utf8DecodeStrict 0 post_data with
    | .ok cs =>
      (parse_qs (String.mk cs)).map fun p => p.1 ++ ": " ++ p.2.headD ""
    | .error e =>
      ["Error parsing form data: " ++ e.message,
       "Raw data: " ++ pyBytesRepr post_data]
  else
    ["Raw form data received:", pyDecodeIgnore post_data]

/-- Console output of a root POST: banner, `try` block output, closing
banner (lines 27-49 of the source). -/
def rootConsole (ct : String) (post_data : List Nat) : List String :=
  ["\n" ++ sep50,
   "📧 CONTACT FORM SUBMISSION RECEIVED",
   sep50]
  ++ tryBlock ct post_data
  ++ [sep50,
      "✅ Form submission simulated successfully!",
      "In production, this would be handled by Netlify Forms",
      sep50 ++ "\n"]

/-- Result of a POST to `/` or `/index.html` once `post_data` has been
read: console echo, then a 200 response with the two headers of lines
53-54 and the canned success page. -/
def rootResult (ct : String) (post_data : List Nat) : HandlerResult :=
  { response :=
      { status := 200
        headers := [("Content-type", "text/html"), ("Access-Control-Allow-Origin", "*")]
        body := successHtml }
    console := rootConsole ct post_data
    bytesRead := post_data.length }

/-- Model of `ContactFormHandler.do_POST` (lines 20-84 of the source).
On the root paths, `int(self.headers["Content-Length"])` raises
`TypeError` when the header is absent and `ValueError` when it does not
parse; otherwise that many body bytes are read and processed.  A missing
`Content-Type` header becomes the empty string via `headers.get`.  Any
other path gets a bare 404 with no body and no read. -/
def do_POST (r : PostRequest) : Except PyExn HandlerResult :=
  if r.path = "/" ∨ r.path = "/index.html" then
    match r.contentLengthHeader with
    | none => .error .typeError
    | some s =>
      match pyInt s with
      | none => .error .valueError
      | some n =>
        .ok (rootResult (r.contentTypeHeader.getD "") (readBytes n r.body))
  else
    .ok { response := { status := 404, headers := [], body := "" }
          console := []
          bytesRead := 0 }

/-- Model of `ContactFormHandler.do_OPTIONS` (lines 86-92 of the source):
the path is never inspected; the response is always 200 with the three
CORS headers and no body. -/
def do_OPTIONS (_path : String) : HandlerResult :=
  { response :=
      { status := 200
        headers := [("Access-Control-Allow-Origin", "*"),
                    ("Access-Control-Allow-Methods", "GET, POST, OPTIONS"),
                    ("Access-Control-Allow-Headers", "Content-Type")]
        body := "" }
    console := []
    bytesRead := 0 }

/-! Section: server bootstrap (`main`, lines 94-115 of the source). -/

/-- Fixed listening port. -/
def PORT : Nat := 8000

/-- Errno value the source annotates as the address-already-in-use bind
failure (`# Address already in use`, line 112). -/
def ADDRINUSE_ERRNO : Nat := 48

/-- Data of an `OSError`: its `errno` and its `str(e)` rendering. -/
structure PyOSError where
  errno : Nat
  msg : String
deriving DecidableEq, Repr

/-- How the `try` block of `main` ends: a Ctrl+C during serving, an
`OSError` (bind failure), or some other exception the `except` clauses
do not cover. -/
inductive ServeEnd where
  | keyboardInterrupt
  | osError (e : PyOSError)
  | otherExn (msg : String)

/-- Startup banner printed before the `try` block (lines 97-101). -/
def bannerLines : List String :=
  ["🚀 Starting local server for contact form testing...",
   "📍 Server will run at: http://localhost:" ++ toString PORT,
   "📧 Form submissions will be logged to this terminal",
   "🔄 Press Ctrl+C to stop the server",
   dash60]

/-- Lines printed once the bind succeeded (lines 105-107). -/
def startedLines : List String :=
  ["✅ Server started successfully!",
   "🌐 Open your browser to: http://localhost:" ++ toString PORT,
   dash60]

/-- Diagnostic printed for an address-already-in-use bind failure
(line 113). -/
def portInUseDiag : String :=
  "❌ Port " ++ toString PORT ++ " is already in use. Try a different port or stop the existing server."

/-- Model of `main` (lines 94-115): total console output as a function of
how the `try` block ends.  A `KeyboardInterrupt` and any `OSError` are
caught and turned into printed lines; anything else escapes
(`Except.error`).  A bind failure happens before the started lines are
printed. -/
def mainRun : ServeEnd → Except String (List String)
  | .keyboardInterrupt =>
    .ok (bannerLines ++ startedLines ++ ["\n🛑 Server stopped by user"])
  | .osError e =>
    .ok (bannerLines ++
      [if e.errno = ADDRINUSE_ERRNO then portInUseDiag
       else "❌ Error starting server: " ++ e.msg])
  | .otherExn m => .error m

/-- Byte stream of an ASCII string, as a client sends it on the wire. -/
def asciiBytes (s : String) : List Nat :=
  s.toList.map Char.toNat

/-! Section: helper lemmas. -/

/-- On the root paths, once `Content-Length` is present and parses, the
handler run is the `rootResult` of the declared content type and the read
body bytes. -/
theorem do_POST_root (r : PostRequest) (hp : r.path = "/" ∨ r.path = "/index.html")
    (s : String) (n : Int) (hcl : r.contentLengthHeader = some s)
    (hn : pyInt s = some n) :
    do_POST r = .ok (rootResult (r.contentTypeHeader.getD "") (readBytes n r.body)) := by
  simp only [do_POST, if_pos hp, hcl, hn]

/-- Every value list `insertPair` leaves in the mapping is nonempty,
provided the existing lists are. -/
theorem insertPair_vals_ne_nil (k v : String) (l : List (String × List String))
    (h : ∀ p ∈ l, p.2 ≠ []) :
    ∀ p ∈ insertPair k v l, p.2 ≠ [] := by
  induction l with
  | nil =>
    intro p hp
    simp only [insertPair, List.mem_singleton] at hp
    subst hp
    simp
  | cons q rest ih =>
    intro p hp
    rw [show insertPair k v (q :: rest) =
        if q.1 = k then (q.1, q.2 ++ [v]) :: rest
        else (q.1, q.2) :: insertPair k v rest from rfl] at hp
    by_cases hk : q.1 = k
    · rw [if_pos hk] at hp
      rcases List.mem_cons.1 hp with h1 | h1
      · subst h1; simp
      · exact h p (List.mem_cons_of_mem _ h1)
    · rw [if_neg hk] at hp
      rcases List.mem_cons.1 hp with h1 | h1
      · subst h1; exact h q (List.mem_cons_self _ _)
      · exact ih (fun p hp => h p (List.mem_cons_of_mem _ hp)) p h1

/-- Every value list in the grouped mapping built by the `parse_qs` fold
is nonempty, provided the initial lists are. -/
theorem foldl_insertPair_vals_ne_nil (ps : List (String × String)) :
    ∀ (init : List (String × List String)), (∀ p ∈ init, p.2 ≠ []) →
      ∀ p ∈ ps.foldl (fun acc q => insertPair q.1 q.2 acc) init, p.2 ≠ [] := by
  induction ps with
  | nil => intro init h; simpa using h
  | cons q ps ih =>
    intro init h
    simp only [List.foldl_cons]
    exact ih _ (insertPair_vals_ne_nil q.1 q.2 init h)

/-! Section: claims. -/

/-- C1.  For every POST request to path `/` or `/index.html` with a
present, integer-parseable `Content-Length` header, the handler responds
with HTTP status 200, header `Content-Type: text/html` (sent as
`Content-type`, compared case-insensitively as HTTP prescribes), and the
fixed success HTML page as body, regardless of the request body; a strict
UTF-8 decode failure during form parsing is caught and logged together
with the exception message and the `repr` of the raw undecoded bytes, and
the handler still returns the same response. -/
theorem c1_root_post_always_succeeds (r : PostRequest)
    (hp : r.path = "/" ∨ r.path = "/index.html")
    (s : String) (n : Int)
    (hcl : r.contentLengthHeader = some s) (hn : pyInt s = some n) :
    ∃ res, do_POST r = .ok res ∧
      res.response.status = 200 ∧
      getHeaderCI "Content-Type" res.response.headers = some "text/html" ∧
      res.response.body = successHtml ∧
      ∀ e, pyIn "application/x-www-form-urlencoded" (r.contentTypeHeader.getD "") = true →
        utf8DecodeStrict 0 (readBytes n r.body) = .error e →
        ("Error parsing form data: " ++ e.message) ∈ res.console ∧
        ("Raw data: " ++ pyBytesRepr (readBytes n r.body)) ∈ res.console := by
  refine ⟨_, do_POST_root r hp s n hcl hn, rfl, rfl, rfl, ?_⟩
  intro e hct herr
  constructor <;>
    simp [rootResult, rootConsole, tryBlock, hct, herr]

/-- Witness for C1 at a concrete request whose form body is invalid
UTF-8. -/
theorem c1_witness :
    ∃ res, do_POST ⟨"/", some "3", some "application/x-www-form-urlencoded",
        [255, 97, 98]⟩ = .ok res ∧
      res.response.status = 200 ∧
      getHeaderCI "Content-Type" res.response.headers = some "text/html" ∧
      res.response.body = successHtml ∧
      ∀ e, pyIn "application/x-www-form-urlencoded"
          ((some "application/x-www-form-urlencoded" : Option String).getD "") = true →
        utf8DecodeStrict 0 (readBytes 3 [255, 97, 98]) = .error e →
        ("Error parsing form data: " ++ e.message) ∈ res.console ∧
        ("Raw data: " ++ pyBytesRepr (readBytes 3 [255, 97, 98])) ∈ res.console :=
  c1_root_post_always_succeeds
    ⟨"/", some "3", some "application/x-www-form-urlencoded", [255, 97, 98]⟩
    (Or.inl rfl) "3" 3 rfl rfl

/-- C2, counterexample.  The claim says every POST response to the root
paths carries all three CORS headers; at this concrete POST the response
carries `Access-Control-Allow-Origin` but neither
`Access-Control-Allow-Methods` nor `Access-Control-Allow-Headers` (the
handler sends only the origin header, lines 52-55 of the source). -/
theorem c2_counterexample :
    do_POST ⟨"/", some "0", some "", []⟩ = .ok (rootResult "" []) ∧
    getHeaderCI "Access-Control-Allow-Origin" (rootResult "" []).response.headers
      = some "*" ∧
    getHeaderCI "Access-Control-Allow-Methods" (rootResult "" []).response.headers
      = none ∧
    getHeaderCI "Access-Control-Allow-Headers" (rootResult "" []).response.headers
      = none :=
  ⟨rfl, rfl, rfl, rfl⟩

/-- C2, amended.  Every POST response to `/` or `/index.html` carries
exactly the headers `Content-type: text/html` and
`Access-Control-Allow-Origin: *`; the `Access-Control-Allow-Methods` and
`Access-Control-Allow-Headers` headers are absent from POST responses and
appear (with `Access-Control-Allow-Origin`) only on OPTIONS responses. -/
theorem c2_amended_post_cors_headers (r : PostRequest)
    (hp : r.path = "/" ∨ r.path = "/index.html")
    (s : String) (n : Int)
    (hcl : r.contentLengthHeader = some s) (hn : pyInt s = some n) :
    (∃ res, do_POST r = .ok res ∧
      res.response.headers =
        [("Content-type", "text/html"), ("Access-Control-Allow-Origin", "*")] ∧
      getHeaderCI "Access-Control-Allow-Origin" res.response.headers = some "*" ∧
      getHeaderCI "Access-Control-Allow-Methods" res.response.headers = none ∧
      getHeaderCI "Access-Control-Allow-Headers" res.response.headers = none) ∧
    ∀ p, (do_OPTIONS p).response.headers =
      [("Access-Control-Allow-Origin", "*"),
       ("Access-Control-Allow-Methods", "GET, POST, OPTIONS"),
       ("Access-Control-Allow-Headers", "Content-Type")] :=
  ⟨⟨_, do_POST_root r hp s n hcl hn, rfl, rfl, rfl, rfl⟩, fun _ => rfl⟩

/-- Witness for the amended C2 at a concrete POST request. -/
theorem c2_witness :
    (∃ res, do_POST ⟨"/index.html", some "1", none, [104]⟩ = .ok res ∧
      res.response.headers =
        [("Content-type", "text/html"), ("Access-Control-Allow-Origin", "*")] ∧
      getHeaderCI "Access-Control-Allow-Origin" res.response.headers = some "*" ∧
      getHeaderCI "Access-Control-Allow-Methods" res.response.headers = none ∧
      getHeaderCI "Access-Control-Allow-Headers" res.response.headers = none) ∧
    ∀ p, (do_OPTIONS p).response.headers =
      [("Access-Control-Allow-Origin", "*"),
       ("Access-Control-Allow-Methods", "GET, POST, OPTIONS"),
       ("Access-Control-Allow-Headers", "Content-Type")] :=
  c2_amended_post_cors_headers ⟨"/index.html", some "1", none, [104]⟩
    (Or.inr rfl) "1" 1 rfl rfl

/-- C3, counterexample.  The claim says a non-form body is decoded as
UTF-8 with replacement characters substituted for invalid sequences; the
source decodes with `errors="ignore"` (line 40), which drops them.  For
the body `0xFF 0x61` the console echoes `"a"`, and the
replacement-decoded text `"�a"` appears nowhere in the console. -/
theorem c3_counterexample :
    do_POST ⟨"/", some "2", some "text/plain", [255, 97]⟩
      = .ok (rootResult "text/plain" [255, 97]) ∧
    pyDecodeIgnore [255, 97] = "a" ∧
    pyDecodeReplace [255, 97] = "�a" ∧
    "a" ∈ (rootResult "text/plain" [255, 97]).console ∧
    "�a" ∉ (rootResult "text/plain" [255, 97]).console :=
  ⟨rfl, rfl, rfl, by decide, by decide⟩

/-- C3, amended.  For every POST to `/` or `/index.html` whose declared
content type does not contain `application/x-www-form-urlencoded`, the
body bytes are decoded as UTF-8 with invalid byte sequences dropped
(`errors="ignore"`, never raising), and the decoded text is printed to
the console directly under the label `Raw form data received:`. -/
theorem c3_amended_raw_branch_ignores_bad_bytes (r : PostRequest)
    (hp : r.path = "/" ∨ r.path = "/index.html")
    (s : String) (n : Int)
    (hcl : r.contentLengthHeader = some s) (hn : pyInt s = some n)
    (hct : pyIn "application/x-www-form-urlencoded" (r.contentTypeHeader.getD "")
      = false) :
    ∃ res, do_POST r = .ok res ∧
      res.response.status = 200 ∧
      res.console =
        ["\n" ++ sep50, "📧 CONTACT FORM SUBMISSION RECEIVED", sep50]
        ++ ["Raw form data received:", pyDecodeIgnore (readBytes n r.body)]
        ++ [sep50, "✅ Form submission simulated successfully!",
            "In production, this would be handled by Netlify Forms",
            sep50 ++ "\n"] := by
  refine ⟨_, do_POST_root r hp s n hcl hn, rfl, ?_⟩
  simp [rootResult, rootConsole, tryBlock, hct]

/-- Witness for the amended C3 at a concrete request with an invalid
UTF-8 body. -/
theorem c3_witness :
    ∃ res, do_POST ⟨"/", some "2", some "text/plain", [255, 97]⟩ = .ok res ∧
      res.response.status = 200 ∧
      res.console =
        ["\n" ++ sep50, "📧 CONTACT FORM SUBMISSION RECEIVED", sep50]
        ++ ["Raw form data received:", pyDecodeIgnore (readBytes 2 [255, 97])]
        ++ [sep50, "✅ Form submission simulated successfully!",
            "In production, this would be handled by Netlify Forms",
            sep50 ++ "\n"] :=
  c3_amended_raw_branch_ignores_bad_bytes ⟨"/", some "2", some "text/plain", [255, 97]⟩
    (Or.inl rfl) "2" 2 rfl rfl (by decide)

/-- C4.  When `main`'s bind fails with the `OSError` the source annotates
as address-already-in-use (`errno = 48`), it prints a diagnostic that
names port 8000 and suggests a different port or stopping the existing
server; for any other bind/startup `OSError` it prints the underlying
error message; in both cases the exception is caught, so no raw stack
trace escapes. -/
theorem c4_bind_failure_diagnostics (e : PyOSError) :
    (∃ ls, mainRun (.osError e) = .ok ls) ∧
    (e.errno = ADDRINUSE_ERRNO →
      mainRun (.osError e) = .ok (bannerLines ++ [portInUseDiag]) ∧
      pyIn "8000" portInUseDiag = true ∧
      pyIn "Try a different port or stop the existing server" portInUseDiag = true) ∧
    (e.errno ≠ ADDRINUSE_ERRNO →
      mainRun (.osError e)
        = .ok (bannerLines ++ ["❌ Error starting server: " ++ e.msg])) := by
  refine ⟨⟨_, rfl⟩, fun h => ⟨?_, by decide, by decide⟩, fun h => ?_⟩
  · simp [mainRun, h]
  · simp [mainRun, h]

/-- Witness for C4 at a concrete address-in-use failure. -/
theorem c4_witness :
    mainRun (.osError ⟨48, "[Errno 48] Address already in use"⟩)
      = .ok (bannerLines ++ [portInUseDiag]) :=
  ((c4_bind_failure_diagnostics ⟨48, "[Errno 48] Address already in use"⟩).2.1 rfl).1

/-- C5.  For every POST to `/` or `/index.html` whose declared content
type contains `application/x-www-form-urlencoded` and whose body decodes
as valid UTF-8, the body is parsed by `parse_qs` into a mapping from
field name to list of values, and for each field one console line
`name: v` is printed, `v` being the first value of the field's list (the
empty string for an empty list); the response stays 200/`text/html`. -/
theorem c5_form_fields_echoed (r : PostRequest)
    (hp : r.path = "/" ∨ r.path = "/index.html")
    (s : String) (n : Int)
    (hcl : r.contentLengthHeader = some s) (hn : pyInt s = some n)
    (cs : List Char)
    (hct : pyIn "application/x-www-form-urlencoded" (r.contentTypeHeader.getD "")
      = true)
    (hdec : utf8DecodeStrict 0 (readBytes n r.body) = .ok cs) :
    ∃ res, do_POST r = .ok res ∧
      res.response.status = 200 ∧
      getHeaderCI "Content-Type" res.response.headers = some "text/html" ∧
      res.console =
        ["\n" ++ sep50, "📧 CONTACT FORM SUBMISSION RECEIVED", sep50]
        ++ (parse_qs (String.mk cs)).map (fun p => p.1 ++ ": " ++ p.2.headD "")
        ++ [sep50, "✅ Form submission simulated successfully!",
            "In production, this would be handled by Netlify Forms",
            sep50 ++ "\n"] := by
  refine ⟨_, do_POST_root r hp s n hcl hn, rfl, rfl, ?_⟩
  simp [rootResult, rootConsole, tryBlock, hct, hdec]

/-- Witness for C5: the body `name=Alice&email=a%40b.com` of the spec's
example yields the console lines `name: Alice` and `email: a@b.com`. -/
theorem c5_witness :
    ∃ res, do_POST ⟨"/", some "26", some "application/x-www-form-urlencoded",
        asciiBytes "name=Alice&email=a%40b.com"⟩ = .ok res ∧
      "name: Alice" ∈ res.console ∧ "email: a@b.com" ∈ res.console := by
  obtain ⟨res, hres, _, _, hcon⟩ :=
    c5_form_fields_echoed
      ⟨"/", some "26", some "application/x-www-form-urlencoded",
        asciiBytes "name=Alice&email=a%40b.com"⟩
      (Or.inl rfl) "26" 26 rfl rfl
      "name=Alice&email=a%40b.com".toList (by decide) rfl
  refine ⟨res, hres, ?_, ?_⟩ <;> rw [hcon] <;> decide

/-- C6.  For every OPTIONS request, on any path, the response is HTTP 200
with exactly the three CORS headers
`Access-Control-Allow-Origin: *`,
`Access-Control-Allow-Methods: GET, POST, OPTIONS`,
`Access-Control-Allow-Headers: Content-Type`, and an empty body (and
nothing is printed or read). -/
theorem c6_options_any_path (p : String) :
    do_OPTIONS p =
      { response :=
          { status := 200
            headers := [("Access-Control-Allow-Origin", "*"),
                        ("Access-Control-Allow-Methods", "GET, POST, OPTIONS"),
                        ("Access-Control-Allow-Headers", "Content-Type")]
            body := "" }
        console := []
        bytesRead := 0 } := rfl

/-- Witness for C6 at a concrete path. -/
theorem c6_witness :
    do_OPTIONS "/some/where" =
      { response :=
          { status := 200
            headers := [("Access-Control-Allow-Origin", "*"),
                        ("Access-Control-Allow-Methods", "GET, POST, OPTIONS"),
                        ("Access-Control-Allow-Headers", "Content-Type")]
            body := "" }
        console := []
        bytesRead := 0 } :=
  c6_options_any_path "/some/where"

/-- C7.  For every POST request whose path is neither `/` nor
`/index.html`, the response is HTTP 404 with no headers and an empty
body, nothing is printed, and no body byte is read. -/
theorem c7_unknown_post_path (r : PostRequest)
    (h1 : r.path ≠ "/") (h2 : r.path ≠ "/index.html") :
    do_POST r = .ok { response := { status := 404, headers := [], body := "" }
                      console := []
                      bytesRead := 0 } := by
  have h : ¬ (r.path = "/" ∨ r.path = "/index.html") := fun h => h.elim h1 h2
  simp only [do_POST, if_neg h]

/-- Witness for C7 at a concrete POST to another path with a nonempty
body. -/
theorem c7_witness :
    do_POST ⟨"/contact", some "5", some "text/plain", [1, 2, 3, 4, 5]⟩
      = .ok { response := { status := 404, headers := [], body := "" }
              console := []
              bytesRead := 0 } :=
  c7_unknown_post_path ⟨"/contact", some "5", some "text/plain", [1, 2, 3, 4, 5]⟩
    (by decide) (by decide)

/-- C8.  For every POST to `/` or `/index.html`, when a `Content-Length`
header is present and parses as an integer `n` (with the client having
that many body bytes available on the wire), the handler raises no
exception at the parsing step and reads exactly `n` bytes before any
further processing. -/
theorem c8_reads_exactly_content_length (r : PostRequest)
    (hp : r.path = "/" ∨ r.path = "/index.html")
    (s : String) (n : Int)
    (hcl : r.contentLengthHeader = some s) (hn : pyInt s = some n)
    (hpos : 0 ≤ n) (hlen : n.toNat ≤ r.body.length) :
    ∃ res, do_POST r = .ok res ∧ res.bytesRead = n.toNat := by
  refine ⟨_, do_POST_root r hp s n hcl hn, ?_⟩
  show (readBytes n r.body).length = n.toNat
  unfold readBytes
  rw [if_neg (by omega : ¬ n < 0), List.length_take]
  omega

/-- Witness for C8 at a concrete request. -/
theorem c8_witness :
    ∃ res, do_POST ⟨"/", some " 2 ", some "text/plain", [10, 20, 30]⟩ = .ok res ∧
      res.bytesRead = (2 : Int).toNat :=
  c8_reads_exactly_content_length ⟨"/", some " 2 ", some "text/plain", [10, 20, 30]⟩
    (Or.inl rfl) " 2 " 2 rfl (by decide) (by decide) (by decide)

/-- C9.  In the mapping `parse_qs` returns, every value list is nonempty
(blank-valued fields such as `name=` are omitted), so the handler's
empty-list fallback is never exercised; concretely, the form body
`name=&email=x` produces only the console line `email: x` and no line
for `name` at all. -/
theorem c9_blank_values_dropped :
    (∀ (qs : String), ∀ p ∈ parse_qs qs, p.2 ≠ []) ∧
    ∃ res, do_POST ⟨"/", some "13", some "application/x-www-form-urlencoded",
        asciiBytes "name=&email=x"⟩ = .ok res ∧
      res.console =
        ["\n" ++ sep50, "📧 CONTACT FORM SUBMISSION RECEIVED", sep50]
        ++ ["email: x"]
        ++ [sep50, "✅ Form submission simulated successfully!",
            "In production, this would be handled by Netlify Forms",
            sep50 ++ "\n"] := by
  constructor
  · intro qs p hp
    exact foldl_insertPair_vals_ne_nil (parse_qsl qs) [] (by simp) p hp
  · exact ⟨_, rfl, by decide⟩

/-- Witness for C9: the mapping of `name=&email=x` holds the pair
`(email, [x])`, whose value list is nonempty. -/
theorem c9_witness :
    (("email", ["x"]) ∈ parse_qs "name=&email=x") ∧ (["x"] : List String) ≠ [] :=
  ⟨by decide,
   c9_blank_values_dropped.1 "name=&email=x" ("email", ["x"]) (by decide)⟩

/-- C10.  A POST to `/` or `/index.html` with no `Content-Type` header at
all does not raise: `headers.get` turns the missing header into the empty
string, the body goes down the raw-text branch and is printed under the
`Raw form data received:` label, and the response is still HTTP 200 with
the success page. -/
theorem c10_missing_content_type_ok (r : PostRequest)
    (hp : r.path = "/" ∨ r.path = "/index.html")
    (s : String) (n : Int)
    (hcl : r.contentLengthHeader = some s) (hn : pyInt s = some n)
    (hct : r.contentTypeHeader = none) :
    ∃ res, do_POST r = .ok res ∧
      res.response.status = 200 ∧
      res.response.body = successHtml ∧
      res.console =
        ["\n" ++ sep50, "📧 CONTACT FORM SUBMISSION RECEIVED", sep50]
        ++ ["Raw form data received:", pyDecodeIgnore (readBytes n r.body)]
        ++ [sep50, "✅ Form submission simulated successfully!",
            "In production, this would be handled by Netlify Forms",
            sep50 ++ "\n"] := by
  refine ⟨_, do_POST_root r hp s n hcl hn, rfl, rfl, ?_⟩
  rw [hct]
  simp [rootResult, rootConsole, tryBlock,
    show pyIn "application/x-www-form-urlencoded" "" = false from rfl]

/-- Witness for C10 at a concrete request with an invalid UTF-8 body and
no `Content-Type` header. -/
theorem c10_witness :
    ∃ res, do_POST ⟨"/", some "4", none, [104, 105, 10, 255]⟩ = .ok res ∧
      res.response.status = 200 ∧
      res.response.body = successHtml ∧
      res.console =
        ["\n" ++ sep50, "📧 CONTACT FORM SUBMISSION RECEIVED", sep50]
        ++ ["Raw form data received:", pyDecodeIgnore (readBytes 4 [104, 105, 10, 255])]
        ++ [sep50, "✅ Form submission simulated successfully!",
            "In production, this would be handled by Netlify Forms",
            sep50 ++ "\n"] :=
  c10_missing_content_type_ok ⟨"/", some "4", none, [104, 105, 10, 255]⟩
    (Or.inl rfl) "4" 4 rfl rfl rfl

end LocalServer
